import Mathlib

/-!
Verification of the MCP-server sync engine of this repository.

The engine lives in `src/scripts/sync_mcp_direct.py` as an embedded plpgsql
program (the SQL text assigned to `sync_sql`): the pure helpers
`generate_server_id`, `extract_tags`, `determine_category`, and the driver
`sync_mcp_servers_from_pulsemcp` with its page loop, per-entry exception
handling, upsert and install-instruction replacement.  This file shallowly
embeds those functions over `List Char` strings and simple list-based tables
and settles the specification claims about them.

Modelling conventions, stated once here:
* SQL `text` values are `Str := List Char`; nullable columns are `Option`.
* PostgreSQL regular-expression operations are implemented directly for the
  concrete patterns the source uses (leftmost match, maximal character runs,
  which coincides with POSIX leftmost-longest for these patterns).
* Statements of the source that cannot execute as intended are embedded
  with their actual runtime outcome, not with their evident intent:
  - the tag-extraction query filters with `length(unnest) > 2 AND unnest
    NOT IN (...)`, naming a column `unnest`, but the query has no FROM
    clause, so the reference cannot resolve and every call of
    `extract_tags` raises undefined-column, SQLSTATE 42703;
  - in the instruction DELETE and in the MAX(sort_order) subquery the
    unqualified name `server_id` is both a column of
    `server_install_instructions` and a declared plpgsql variable.
    PostgreSQL resolves one unqualified name uniformly, governed by the
    `variable_conflict` setting: the default `error` policy raises
    ambiguous-column, SQLSTATE 42702, at run time, while `use_column` and
    `use_variable` both turn the comparison into a tautology, so the
    DELETE removes every row of the whole table and the subquery's MAX
    ranges over the whole table.  `sync_instructions` is parametrised by
    the policy; the driver uses the default.
* `EXCEPTION WHEN OTHERS` blocks: a caught error rolls back the database
  changes of the failed block, while plpgsql variables (the statistics
  counters) keep the values they had at the time of the error.  Because
  `extract_tags` raises while `server_data` is being built (line 252 of
  the source), before the INSERT/UPDATE, every entry takes the handler
  path; the upsert and instruction phases below that point are embedded
  but unreachable.
* The page-fetch environment is a list of fetch outcomes consumed in order;
  a fetch past the end of the list is modelled as an unreachable endpoint,
  i.e. a page-level error.
-/

/-- SQL `text`, as a list of characters. -/
abbrev Str := List Char

/-- Shorthand turning a string literal into `Str`. -/
def str (s : String) : Str := s.toList

/-- SQL `lower`, character by character. -/
def lowerStr (s : Str) : Str := s.map Char.toLower

/-- Membership in the character class `[a-z0-9]`. -/
def isAlnumLower (c : Char) : Bool :=
  (97 ≤ c.toNat && c.toNat ≤ 122) || (48 ≤ c.toNat && c.toNat ≤ 57)

/-- SQL `hay LIKE '%needle%'`: substring containment. -/
def likeContains : Str → Str → Bool
  | [], needle => needle.isEmpty
  | c :: t, needle => needle.isPrefixOf (c :: t) || likeContains t needle

/-- State machine for `regexp_replace(s, '[^a-z0-9]+', '-', 'g')`: the flag
records whether we are inside a run of replaced characters. -/
def collapseAux : Bool → Str → Str
  | _, [] => []
  | inSep, c :: t =>
    if isAlnumLower c then c :: collapseAux false t
    else if inSep then collapseAux true t
    else '-' :: collapseAux true t

/-- `regexp_replace(s, '[^a-z0-9]+', '-', 'g')`: every maximal run of
characters outside `[a-z0-9]` becomes a single dash. -/
def collapseNonAlnum (s : Str) : Str := collapseAux false s

/-- Membership in the regex class `[\w.-]` (ASCII reading of `\w`). -/
def isWordChar (c : Char) : Bool :=
  (97 ≤ c.toNat && c.toNat ≤ 122) || (65 ≤ c.toNat && c.toNat ≤ 90) ||
  (48 ≤ c.toNat && c.toNat ≤ 57) || c.toNat = 95 || c.toNat = 46 || c.toNat = 45

/-- Membership in the id-cleanup character class: `[a-z0-9]`, dash, slash. -/
def isIdChar (c : Char) : Bool := isAlnumLower c || c == '-' || c == '/'

/-- `regexp_replace(s, '\.git$', '')`: strip a trailing `.git`. -/
def stripDotGit (s : Str) : Str :=
  if (str (".git")).isSuffixOf s then s.take (s.length - 4) else s

/-- Match `([\w.-]+)/([\w.-]+)` at the start of `s`.  Since `/` is not in
the class, the owner capture is forced to be the maximal word run. -/
def matchOwnerRepo (s : Str) : Option (Str × Str) :=
  let w1 := s.takeWhile isWordChar
  match w1, s.dropWhile isWordChar with
  | [], _ => none
  | _ :: _, [] => none
  | _ :: _, c :: r2 =>
    if c == '/' then
      let w2 := r2.takeWhile isWordChar
      if w2.isEmpty then none else some (w1, w2)
    else none

/-- Match `[/:]` then owner/repo. -/
def matchSep : Str → Option (Str × Str)
  | [] => none
  | c :: t => if c == '/' || c == ':' then matchOwnerRepo t else none

/-- The literal part of the pattern. -/
def githubLit : Str := str ("github.com")

/-- `regexp_matches(url, 'github\.com[/:]([\w.-]+)/([\w.-]+)')`: captures of
the leftmost match, or none. -/
def githubMatch : Str → Option (Str × Str)
  | [] => none
  | c :: t =>
    match (if githubLit.isPrefixOf (c :: t)
           then matchSep ((c :: t).drop githubLit.length) else none) with
    | some p => some p
    | none => githubMatch t

/-- The source's `generate_server_id(name, github_url)`: owner/repo from the
URL when the pattern matches (lowercased, then each character that is not
lowercase alphanumeric, dash or slash replaced by a dash); otherwise the fallback
`lower(regexp_replace(name, '[^a-z0-9]+', '-', 'g'))` — note that the
source applies the collapse BEFORE `lower`, exactly as embedded here. -/
def generate_server_id (name : Str) (github_url : Option Str) : Str :=
  match github_url.bind githubMatch with
  | some (owner, repo) =>
    let sid := lowerStr (owner ++ ( '/' :: stripDotGit repo))
    sid.map (fun c => if isIdChar c then c else '-')
  | none => lowerStr (collapseNonAlnum name)

/-- What the specification says the fallback identifier is: `lower(name)`
with every run of non-alphanumeric characters collapsed to a single dash.
Modelled from the spec for comparison with the source's fallback. -/
def fallbackIdClaim (name : Str) : Str := collapseNonAlnum (lowerStr name)

def kwAuth : Str := str ("auth")
def kwLogin : Str := str ("login")
def kwDatabase : Str := str ("database")
def kwStorage : Str := str ("storage")
def kwDb : Str := str ("db")
def kwAi : Str := str ("ai")
def kwLlm : Str := str ("llm")
def kwLangModel : Str := str ("language model")
def kwFile : Str := str ("file")
def kwDocument : Str := str ("document")
def kwWeb : Str := str ("web")
def kwHttp : Str := str ("http")

/-- The source's `determine_category(name, description)`: the ordered chain
of `LIKE` tests, first match wins; the description is `COALESCE`d to the
empty string.  Which field each keyword is tested against is exactly as in
the source: only `auth` is tested against both name and description, `db`
against the name only, every other keyword against the description only. -/
def determine_category (name : Str) (description : Option Str) : Str :=
  let lc_name := lowerStr name
  let lc_desc := lowerStr (description.getD [])
  if likeContains lc_name kwAuth || likeContains lc_desc kwAuth ||
     likeContains lc_desc kwLogin then str ("auth")
  else if likeContains lc_desc kwDatabase || likeContains lc_desc kwStorage ||
     likeContains lc_name kwDb then str ("database")
  else if likeContains lc_desc kwAi || likeContains lc_desc kwLlm ||
     likeContains lc_desc kwLangModel then str ("ai")
  else if likeContains lc_desc kwFile || likeContains lc_desc kwDocument
     then str ("files")
  else if likeContains lc_desc kwWeb || likeContains lc_desc kwHttp
     then str ("web")
  else str ("other")

/-- First-match evaluation of an ordered rule list, with a default. -/
def firstMatch : List (Bool × Str) → Str → Str
  | [], dflt => dflt
  | (c, v) :: t, dflt => if c then v else firstMatch t dflt

/-- The classifier exactly as the claim words it: "lowercase name and
description are scanned for ordered keyword rules", every keyword tested
against both fields except `db`, which the claim restricts to the name.
Modelled from the spec, to be compared with `determine_category`. -/
def categoryClaimRules (name : Str) (description : Option Str) : Str :=
  let n := lowerStr name
  let d := lowerStr (description.getD [])
  firstMatch
    [ (likeContains n kwAuth || likeContains d kwAuth ||
       likeContains n kwLogin || likeContains d kwLogin, str ("auth")),
      (likeContains n kwDatabase || likeContains d kwDatabase ||
       likeContains n kwStorage || likeContains d kwStorage ||
       likeContains n kwDb, str ("database")),
      (likeContains n kwAi || likeContains d kwAi ||
       likeContains n kwLlm || likeContains d kwLlm ||
       likeContains n kwLangModel || likeContains d kwLangModel, str ("ai")),
      (likeContains n kwFile || likeContains d kwFile ||
       likeContains n kwDocument || likeContains d kwDocument, str ("files")),
      (likeContains n kwWeb || likeContains d kwWeb ||
       likeContains n kwHttp || likeContains d kwHttp, str ("web")) ]
    (str ("other"))

/-- The amended rule list: identical to the claim's ordered rules except
that each keyword is scanned against the field(s) the source actually
scans: `auth` in name or description, `db` in the name only, and `login`,
`database`, `storage`, `ai`, `llm`, `language model`, `file`, `document`,
`web`, `http` in the description only. -/
def categoryAmendedRules (name : Str) (description : Option Str) : Str :=
  let lc_name := lowerStr name
  let lc_desc := lowerStr (description.getD [])
  firstMatch
    [ (likeContains lc_name kwAuth || likeContains lc_desc kwAuth ||
       likeContains lc_desc kwLogin, str ("auth")),
      (likeContains lc_desc kwDatabase || likeContains lc_desc kwStorage ||
       likeContains lc_name kwDb, str ("database")),
      (likeContains lc_desc kwAi || likeContains lc_desc kwLlm ||
       likeContains lc_desc kwLangModel, str ("ai")),
      (likeContains lc_desc kwFile || likeContains lc_desc kwDocument,
       str ("files")),
      (likeContains lc_desc kwWeb || likeContains lc_desc kwHttp,
       str ("web")) ]
    (str ("other"))

/-- The stop-word array `common_words` of the source. -/
def common_words : List Str :=
  [str ("the"), str ("and"), str ("for"), str ("with"), str ("that"),
   str ("this"), str ("has"), str ("are"), str ("from")]

/-- Accumulating tokenizer: maximal runs of `[a-z0-9]` characters, i.e.
`regexp_split_to_array(s, '[^a-z0-9]+')` with empty fragments dropped. -/
def tokensAux : Str → Str → List Str
  | [], cur => if cur.isEmpty then [] else [cur.reverse]
  | c :: t, cur =>
    if isAlnumLower c then tokensAux t (c :: cur)
    else if cur.isEmpty then tokensAux t [] else cur.reverse :: tokensAux t []

/-- Alphanumeric tokens of a string, left to right. -/
def tokens (s : Str) : List Str := tokensAux s []

/-- Tokens of one nullable field, lowercased first as in the source. -/
def splitWords : Option Str → List Str
  | some s => tokens (lowerStr s)
  | none => []

/-- `array_cat(name_parts, desc_parts)` of the source. -/
def tagTokens (name description : Option Str) : List Str :=
  splitWords name ++ splitWords description

/-- The filter the source's tag query states: length above 2 and not a
stop word. -/
def keepWord (w : Str) : Bool :=
  decide (2 < w.length) && !(common_words.contains w)

/-- Deduplication keeping the first occurrence, with an accumulator of
already-seen words. -/
def dedupAux : List Str → List Str → List Str
  | _, [] => []
  | seen, w :: t =>
    if seen.contains w then dedupAux seen t else w :: dedupAux (w :: seen) t

/-- `SELECT DISTINCT`, keeping the first occurrence of each word. -/
def dedupFirst (l : List Str) : List Str := dedupAux [] l

/-- Column names visible to the WHERE clause of the source's tag query:
the query `SELECT DISTINCT unnest(all_words) AS word WHERE ...` has no
FROM clause, so no column at all is in scope there. -/
def tagQueryFromColumns : List Str := []

/-- Resolution of an unqualified column reference in a WHERE clause: the
name must denote a column of the FROM list, otherwise the statement fails
with undefined-column, SQLSTATE 42703. -/
def resolveColumnRef (cols : List Str) (n : Str) : Except Str Str :=
  if cols.contains n then Except.ok n
  else Except.error (str ("42703: column ") ++ n ++ str (" does not exist"))

/-- The source's `extract_tags(name, description)` (lines 108-148).  Its
aggregation query names the column `unnest` in its WHERE clause; the query
has no FROM clause, so the reference fails to resolve and every call of
the function raises undefined-column.  The ok branch holds the filter /
first-occurrence-deduplicate / cap-at-10 pipeline the query's text aims
at; it is unreachable. -/
def extract_tags (name description : Option Str) : Except Str (List Str) :=
  match resolveColumnRef tagQueryFromColumns (str ("unnest")) with
  | .error e => .error e
  | .ok _ =>
    .ok ((dedupFirst ((tagTokens name description).filter keepWord)).take 10)

/-- One element of the entry's `install_instructions` array, as read by
`jsonb_to_recordset(... ) AS x(platform text, icon_url text,
install_command text)`; every field nullable. -/
structure InstrInput where
  platform : Option Str
  icon_url : Option Str
  install_command : Option Str
  deriving DecidableEq, Repr

/-- One source entry of a page (`server` in the source). -/
structure Entry where
  name : Str
  short_description : Option Str
  ai_description : Option Str
  source_code_url : Option Str
  package_registry : Option Str
  package_name : Option Str
  package_download_count : Option Int
  github_stars : Option Int
  external_url : Option Str
  api_endpoints : Option (List Str)
  api_examples : Option (List Str)
  install_instructions : Option (List InstrInput)
  deriving DecidableEq, Repr

/-- The `api_documentation` jsonb object built per entry (the constant
`methods` and `meta.source`/`meta.version` fields are omitted; `generated_at`
is the transaction timestamp `now()`). -/
structure ApiDoc where
  description : Str
  endpoints : List Str
  examples : List Str
  generated_at : Nat
  deriving DecidableEq, Repr

/-- A row of the `servers` table. -/
structure ServerRow where
  id : Str
  name : Str
  description : Option Str
  category : Str
  tags : List Str
  package_registry : Option Str
  package_name : Option Str
  package_download_count : Option Int
  github_url : Option Str
  github_stars : Option Int
  external_url : Option Str
  api_documentation : ApiDoc
  created_at : Nat
  updated_at : Nat
  deriving DecidableEq, Repr

/-- A row of the `server_install_instructions` table. -/
structure InstrRow where
  server_id : Str
  platform : Option Str
  icon_url : Option Str
  install_command : Option Str
  sort_order : Int
  deriving DecidableEq, Repr

/-- The two tables the sync touches. -/
structure DB where
  servers : List ServerRow
  instructions : List InstrRow
  deriving DecidableEq, Repr

/-- The plpgsql counters and the `error_messages` array of the driver. -/
structure Stats where
  server_count : Nat
  added_count : Nat
  updated_count : Nat
  skipped_count : Nat
  error_count : Nat
  error_messages : List Str
  deriving DecidableEq, Repr

/-- `SELECT * INTO existing_server FROM servers WHERE id = server_id`:
the first row with the given id, if any (`server_id` is unambiguous here,
since `servers` has no column of that name). -/
def findServer (db : DB) (sid : Str) : Option ServerRow :=
  db.servers.find? (fun r => r.id == sid)

/-- SQL `MAX` over a list of integers: `none` on the empty list. -/
def sqlMaxInt : List Int → Option Int
  | [] => none
  | x :: xs => some (xs.foldl max x)

/-- The `sort_order` subquery under the tautological resolution of its
WHERE clause (`use_column` compares the column with itself, `use_variable`
the variable with itself): `COALESCE(MAX(sort_order), -1) + 1` over the
WHOLE table, not over one record's rows. -/
def nextSortOrderTaut (rows : List InstrRow) : Int :=
  (sqlMaxInt (rows.map (fun r => r.sort_order))).getD (-1) + 1

/-- The row inserted for one source-supplied instruction. -/
def mkSourceRow (sid : Str) (x : InstrInput) (k : Int) : InstrRow :=
  { server_id := sid, platform := x.platform, icon_url := x.icon_url,
    install_command := x.install_command, sort_order := k }

/-- The source's `FOR install_record IN ... LOOP INSERT ...` under the
tautological resolution: each insert computes its `sort_order` from the
whole table as inserted so far. -/
def insertSourceInstrs (sid : Str) : List InstrInput → List InstrRow → List InstrRow
  | [], rows => rows
  | x :: t, rows =>
    insertSourceInstrs sid t (rows ++ [mkSourceRow sid x (nextSortOrderTaut rows)])

/-- The two default npm rows of the source, sort orders 0 and 1. -/
def npmRows (sid pn : Str) : List InstrRow :=
  [ { server_id := sid, platform := some (str ("Node.js")),
      icon_url := some (str ("https://nodejs.org/static/images/logos/nodejs-new-pantone-black.svg")),
      install_command := some (str ("npm install ") ++ pn), sort_order := 0 },
    { server_id := sid, platform := some (str ("Yarn")),
      icon_url := some (str ("https://yarnpkg.com/favicon.svg")),
      install_command := some (str ("yarn add ") ++ pn), sort_order := 1 } ]

/-- The default pip/pypi row of the source, sort order 0. -/
def pipRows (sid pn : Str) : List InstrRow :=
  [ { server_id := sid, platform := some (str ("Python")),
      icon_url := some (str ("https://www.python.org/static/favicon.ico")),
      install_command := some (str ("pip install ") ++ pn), sort_order := 0 } ]

/-- The default cargo row of the source, sort order 0. -/
def cargoRows (sid pn : Str) : List InstrRow :=
  [ { server_id := sid, platform := some (str ("Rust")),
      icon_url := some (str ("https://www.rust-lang.org/favicon.ico")),
      install_command := some (str ("cargo add ") ++ pn), sort_order := 0 } ]

/-- The default go row of the source, sort order 0. -/
def goRows (sid pn : Str) : List InstrRow :=
  [ { server_id := sid, platform := some (str ("Go")),
      icon_url := some (str ("https://go.dev/favicon.ico")),
      install_command := some (str ("go get ") ++ pn), sort_order := 0 } ]

/-- The registry dispatch of the default-instruction branch. -/
def defaultRows (sid registry pn : Str) : List InstrRow :=
  if registry == str ("npm") then npmRows sid pn
  else if registry == str ("pip") || registry == str ("pypi") then pipRows sid pn
  else if registry == str ("cargo") then cargoRows sid pn
  else if registry == str ("go") then goRows sid pn
  else []

/-- The three possible resolutions of the ambiguous unqualified
`server_id` of the instruction statements, per plpgsql's
`variable_conflict` configuration; `raiseError` is PostgreSQL's default. -/
inductive VariableConflict
  | raiseError
  | useColumn
  | useVariable
  deriving DecidableEq, Repr

/-- Lines 309-398 of the source.  The DELETE's WHERE clause is
`server_id = server_id`, with `server_id` both a column of the table and a
declared plpgsql variable, and the MAX(sort_order) subquery repeats the
same comparison.  Under the default `error` policy the DELETE raises
ambiguous-column (SQLSTATE 42702) at run time, so the operation fails
before touching anything.  Under `use_column` the predicate compares the
column with itself and under `use_variable` the variable with itself — a
tautology either way (the values involved are non-null) — so the DELETE
removes EVERY row of the table, after which the inserts proceed, their
sort-order subquery ranging over the whole (now just-wiped) table.  Under
no policy does the source perform the per-record delete the spec
describes. -/
def sync_instructions (policy : VariableConflict) (sid : Str) (e : Entry)
    (db : DB) : Except Str DB :=
  match policy with
  | .raiseError =>
    .error (str ("42702: column reference server_id is ambiguous"))
  | _ =>
    let rows : List InstrRow := []
    let dflt :=
      match e.package_registry, e.package_name with
      | some reg, some pn => rows ++ defaultRows sid reg pn
      | _, _ => rows
    let rows2 :=
      match e.install_instructions with
      | some l => if 0 < l.length then insertSourceInstrs sid l rows else dflt
      | none => dflt
    .ok { servers := db.servers, instructions := rows2 }

/-- The `api_documentation` object of the source: description coalesced
from the AI description, the short description and the empty string. -/
def mkApiDoc (now : Nat) (e : Entry) : ApiDoc :=
  { description := (e.ai_description.orElse (fun _ => e.short_description)).getD [],
    endpoints := e.api_endpoints.getD [],
    examples := e.api_examples.getD [],
    generated_at := now }

/-- The row the INSERT of a new server would write: `server_data` (with the
given tags value) plus `created_at` set to `now()`; `updated_at` is
already `now()` in `server_data`.  Unreachable in execution, since
`server_data` cannot be built. -/
def newServerRow (now : Nat) (e : Entry) (sid : Str) (tags : List Str) :
    ServerRow :=
  { id := sid, name := e.name, description := e.short_description,
    category := determine_category e.name e.short_description,
    tags := tags,
    package_registry := e.package_registry, package_name := e.package_name,
    package_download_count := e.package_download_count,
    github_url := e.source_code_url, github_stars := e.github_stars,
    external_url := e.external_url, api_documentation := mkApiDoc now e,
    created_at := now, updated_at := now }

/-- The row the UPDATE of an existing server would leave: every mutable
field set from the entry, `updated_at` refreshed; `id` and `created_at`
are not in the SET list and keep their values.  Unreachable in execution,
like the insert. -/
def updateServerRow (now : Nat) (e : Entry) (tags : List Str)
    (r : ServerRow) : ServerRow :=
  { r with
    name := e.name
    description := e.short_description
    category := determine_category e.name e.short_description
    tags := tags
    package_registry := e.package_registry
    package_name := e.package_name
    package_download_count := e.package_download_count
    github_url := e.source_code_url
    github_stars := e.github_stars
    external_url := e.external_url
    api_documentation := mkApiDoc now e
    updated_at := now }

/-- The diagnostic message of the per-entry exception handler
(`format('Error processing server %s: %s', ...)`, with the SQL error text
elided). -/
def entryErrMsg (e : Entry) : Str := str ("Error processing server ") ++ e.name

/-- The per-entry exception handler: skipped and error counters up, one
message appended.  Counter changes made before the raise are kept. -/
def entryRaise (s : Stats) (e : Entry) : Stats :=
  { s with
    skipped_count := s.skipped_count + 1
    error_count := s.error_count + 1
    error_messages := s.error_messages ++ [entryErrMsg e] }

/-- One iteration of the inner FOR loop (lines 216-416 of the source):
count the entry, then run the guarded block.  The block derives the
identifier, builds the api-documentation object, looks up the existing row
and then builds `server_data`, whose `tags` field calls `extract_tags`;
that call raises on every input, so the handler fires — with no database
change yet to roll back — and neither upsert path nor the instruction
phase is ever reached.  The code below the match mirrors those unreachable
phases: the single-row INSERT/UPDATE (whose RETURNING always yields a row,
so the IS NULL guards never fire) followed by `sync_instructions` under
the default name-resolution policy, whose 42702 raise would roll the
entry's write back. -/
def processEntry (now : Nat) (acc : DB × Stats) (e : Entry) : DB × Stats :=
  let db := acc.1
  let s := { acc.2 with server_count := acc.2.server_count + 1 }
  let sid := generate_server_id e.name e.source_code_url
  let existing := findServer db sid
  match extract_tags (some e.name) e.short_description with
  | .error _ => (db, entryRaise s e)
  | .ok tags =>
    match existing with
    | none =>
      let s1 := { s with added_count := s.added_count + 1 }
      let db1 : DB :=
        { servers := db.servers ++ [newServerRow now e sid tags],
          instructions := db.instructions }
      match sync_instructions VariableConflict.raiseError sid e db1 with
      | .error _ => (db, entryRaise s1 e)
      | .ok db2 => (db2, s1)
    | some _ =>
      let s1 := { s with updated_count := s.updated_count + 1 }
      let db1 : DB :=
        { servers := db.servers.map (fun r =>
            if r.id == sid then updateServerRow now e tags r else r),
          instructions := db.instructions }
      match sync_instructions VariableConflict.raiseError sid e db1 with
      | .error _ => (db, entryRaise s1 e)
      | .ok db2 => (db2, s1)

/-- Process every entry of one page, left to right. -/
def processPage (now : Nat) (acc : DB × Stats) (es : List Entry) : DB × Stats :=
  es.foldl (processEntry now) acc

/-- One fetch outcome supplied by the environment: a page-level error, or a
page of entries together with whether a next cursor is present. -/
inductive FetchOutcome
  | fail (msg : Str)
  | page (entries : List Entry) (hasNext : Bool)
  deriving DecidableEq, Repr

/-- The state of the WHILE loop: tables, counters, and how many page
fetches have happened. -/
structure RunState where
  db : DB
  stats : Stats
  pagesFetched : Nat
  deriving DecidableEq, Repr

/-- `format('Error fetching page: %s', SQLERRM)`, error text elided. -/
def pageFailMsg (m : Str) : Str := str ("Error fetching page: ") ++ m

/-- The page-level exception handler: error counter up, one message
appended, `next_url := NULL` so that pagination stops. -/
def pageFailStats (m : Str) (s : Stats) : Stats :=
  { s with
    error_count := s.error_count + 1
    error_messages := s.error_messages ++ [pageFailMsg m] }

/-- The WHILE loop over `next_url` (lines 203-434 of the source), driven by
the list of fetch outcomes.  A fetch past the end of the environment is an
unreachable endpoint, i.e. a page-level error. -/
def runPages (now : Nat) : List FetchOutcome → RunState → RunState
  | [], st =>
    { st with
      stats := pageFailStats (str ("no response")) st.stats
      pagesFetched := st.pagesFetched + 1 }
  | .fail m :: _, st =>
    { st with
      stats := pageFailStats m st.stats
      pagesFetched := st.pagesFetched + 1 }
  | .page es hasNext :: rest, st =>
    let acc := processPage now (st.db, st.stats) es
    let st2 : RunState :=
      { db := acc.1, stats := acc.2, pagesFetched := st.pagesFetched + 1 }
    if hasNext then runPages now rest st2 else st2

/-- The jsonb object the function returns on its normal exit (lines
441-451): `success` TRUE, the counters, and the error-message array under
`stats.errors`.  The `success` FALSE return of the outer handler is
unreachable, because both inner handlers catch `WHEN OTHERS`. -/
structure SyncResult where
  success : Bool
  message : Str
  total : Nat
  added : Nat
  updated : Nat
  skipped : Nat
  errors : List Str
  deriving DecidableEq, Repr

/-- Package a final loop state as the function's return value. -/
def syncResult (st : RunState) : SyncResult :=
  { success := true, message := str ("MCP servers sync completed"),
    total := st.stats.server_count, added := st.stats.added_count,
    updated := st.stats.updated_count, skipped := st.stats.skipped_count,
    errors := st.stats.error_messages }

/-- All counters zero, no messages. -/
def stats0 : Stats :=
  { server_count := 0, added_count := 0, updated_count := 0,
    skipped_count := 0, error_count := 0, error_messages := [] }

/-- Both tables empty. -/
def emptyDB : DB := { servers := [], instructions := [] }

/-- A whole run from a given database: the loop from fresh counters. -/
def runSync (now : Nat) (env : List FetchOutcome) (db : DB) : RunState :=
  runPages now env { db := db, stats := stats0, pagesFetched := 0 }

/-- The source's `sync_mcp_servers_from_pulsemcp()`: run the loop and build
the returned object. -/
def sync_mcp_servers_from_pulsemcp (now : Nat) (env : List FetchOutcome)
    (db : DB) : SyncResult :=
  syncResult (runSync now env db)

/-- An entry with just a name: every optional field null. -/
def plainEntry (nm : Str) : Entry :=
  { name := nm, short_description := none, ai_description := none,
    source_code_url := none, package_registry := none, package_name := none,
    package_download_count := none, github_stars := none, external_url := none,
    api_endpoints := none, api_examples := none, install_instructions := none }

/-- Concrete inputs used by the evaluation theorems. -/
def entW1 : Entry := plainEntry (str ("alpha"))

/-- An instruction row owned by a record other than `alpha`. -/
def instrRowW : InstrRow :=
  { server_id := str ("other-id"), platform := none, icon_url := none,
    install_command := none, sort_order := 5 }

def dbW2 : DB := { servers := [], instructions := [instrRowW] }

/-- One source-supplied instruction, for the replacement evaluation. -/
def cliInput : InstrInput :=
  { platform := some (str ("CLI")), icon_url := none,
    install_command := some (str ("run alpha")) }

/-- An entry for record `alpha` supplying one instruction. -/
def entInstr : Entry :=
  { plainEntry (str ("alpha")) with install_instructions := some [cliInput] }

/-- A stale instruction row of record `alpha` from an earlier pass. -/
def staleRow : InstrRow :=
  { server_id := str ("alpha"), platform := some (str ("Old")),
    icon_url := none, install_command := none, sort_order := 7 }

def dbW3 : DB := { servers := [], instructions := [staleRow] }

theorem runPages_page (now : Nat) (es : List Entry) (hasNext : Bool)
    (rest : List FetchOutcome) (st : RunState) :
    runPages now (FetchOutcome.page es hasNext :: rest) st =
      (if hasNext then
        runPages now rest
          { db := (processPage now (st.db, st.stats) es).1,
            stats := (processPage now (st.db, st.stats) es).2,
            pagesFetched := st.pagesFetched + 1 }
      else
        { db := (processPage now (st.db, st.stats) es).1,
          stats := (processPage now (st.db, st.stats) es).2,
          pagesFetched := st.pagesFetched + 1 }) := rfl

theorem processEntry_eval (now : Nat) (acc : DB × Stats) (e : Entry) :
    processEntry now acc e =
      (acc.1, entryRaise
        { acc.2 with server_count := acc.2.server_count + 1 } e) := rfl

theorem processEntry_deltas (now : Nat) (acc : DB × Stats) (e : Entry) :
    (processEntry now acc e).2.server_count = acc.2.server_count + 1 ∧
    (processEntry now acc e).2.added_count = acc.2.added_count ∧
    (processEntry now acc e).2.updated_count = acc.2.updated_count ∧
    (processEntry now acc e).2.skipped_count = acc.2.skipped_count + 1 := by
  rw [processEntry_eval]
  simp [entryRaise]

theorem processPage_deltas (now : Nat) :
    ∀ (es : List Entry) (acc : DB × Stats),
      (processPage now acc es).2.server_count =
        acc.2.server_count + es.length ∧
      (processPage now acc es).2.added_count = acc.2.added_count ∧
      (processPage now acc es).2.updated_count = acc.2.updated_count ∧
      (processPage now acc es).2.skipped_count =
        acc.2.skipped_count + es.length := by
  intro es
  induction es with
  | nil => intro acc; simp [processPage]
  | cons e t ih =>
    intro acc
    have he := processEntry_deltas now acc e
    have ht := ih (processEntry now acc e)
    have hstep : processPage now acc (e :: t) =
        processPage now (processEntry now acc e) t := rfl
    rw [hstep]
    simp only [List.length_cons]
    omega

theorem runPages_balance (now : Nat) :
    ∀ (env : List FetchOutcome) (st : RunState),
      st.stats.server_count =
        st.stats.added_count + st.stats.updated_count + st.stats.skipped_count →
      (runPages now env st).stats.server_count =
        (runPages now env st).stats.added_count +
        (runPages now env st).stats.updated_count +
        (runPages now env st).stats.skipped_count := by
  intro env
  induction env with
  | nil => intro st hinv; simpa [runPages, pageFailStats] using hinv
  | cons fo rest ih =>
    intro st hinv
    cases fo with
    | fail m => simpa [runPages, pageFailStats] using hinv
    | page es hasNext =>
      have hpc := processPage_deltas now es (st.db, st.stats)
      simp only at hpc
      rw [runPages_page]
      cases hasNext with
      | false =>
        simp only [Bool.false_eq_true, if_false]
        omega
      | true =>
        simp only [if_true]
        refine ih _ ?_
        show (processPage now (st.db, st.stats) es).2.server_count =
          (processPage now (st.db, st.stats) es).2.added_count +
          (processPage now (st.db, st.stats) es).2.updated_count +
          (processPage now (st.db, st.stats) es).2.skipped_count
        omega

theorem runPages_no_success (now : Nat) :
    ∀ (env : List FetchOutcome) (st : RunState),
      (runPages now env st).stats.added_count = st.stats.added_count ∧
      (runPages now env st).stats.updated_count = st.stats.updated_count := by
  intro env
  induction env with
  | nil => intro st; simp [runPages, pageFailStats]
  | cons fo rest ih =>
    intro st
    cases fo with
    | fail m => simp [runPages, pageFailStats]
    | page es hasNext =>
      have hpc := processPage_deltas now es (st.db, st.stats)
      simp only at hpc
      rw [runPages_page]
      cases hasNext with
      | false =>
        simp only [Bool.false_eq_true, if_false]
        exact ⟨hpc.2.1, hpc.2.2.1⟩
      | true =>
        simp only [if_true]
        have hr := ih ⟨(processPage now (st.db, st.stats) es).1,
          (processPage now (st.db, st.stats) es).2, st.pagesFetched + 1⟩
        simp only at hr
        exact ⟨hr.1.trans hpc.2.1, hr.2.trans hpc.2.2.1⟩

theorem runPages_prefix_fail (now : Nat) (m : Str) :
    ∀ (pre : List (List Entry)) (post : List FetchOutcome) (st : RunState),
      runPages now (pre.map (fun es => FetchOutcome.page es true) ++
        FetchOutcome.fail m :: post) st =
      { db := (pre.foldl (processPage now) (st.db, st.stats)).1,
        stats := pageFailStats m (pre.foldl (processPage now) (st.db, st.stats)).2,
        pagesFetched := st.pagesFetched + pre.length + 1 } := by
  intro pre
  induction pre with
  | nil => intro post st; simp [runPages]
  | cons es pre ih =>
    intro post st
    simp only [List.map_cons, List.cons_append, runPages, List.foldl_cons]
    rw [if_pos trivial]
    simp only [List.append_eq]
    rw [ih post]
    simp only [RunState.mk.injEq, List.length_cons]
    exact ⟨by trivial, by trivial, by omega⟩

/-- C2.  Evaluation of the instruction replacement on a table holding one
row of a DIFFERENT record (`other-id`), running a pass for record `alpha`:
under PostgreSQL's default name-resolution policy the pass raises
ambiguous-column and replaces nothing; under either explicit policy the
tautological DELETE removes the `other-id` row as well — so no real
semantics deletes only the rows of the record being passed. -/
theorem C2_code_eval :
    sync_instructions VariableConflict.raiseError (str ("alpha")) entW1 dbW2 =
      Except.error (str ("42702: column reference server_id is ambiguous")) ∧
    sync_instructions VariableConflict.useColumn (str ("alpha")) entW1 dbW2 =
      Except.ok { servers := [], instructions := [] } ∧
    sync_instructions VariableConflict.useVariable (str ("alpha")) entW1 dbW2 =
      Except.ok { servers := [], instructions := [] } ∧
    dbW2.instructions = [instrRowW] ∧
    instrRowW.server_id = str ("other-id") :=
  ⟨rfl, rfl, rfl, rfl, rfl⟩

/-- C3.  Evaluation of the replacement pass for record `alpha` (one
source-supplied instruction) against a table holding a stale `alpha` row
of sort order 7: under the default policy the pass raises and — since the
per-entry handler rolls the block back — the stale row survives with its
old sort order, so the record's rows do not become the derived input and
are not 0-based; the driver never even reaches this phase, because every
entry already raises in `extract_tags` (last conjunct). -/
theorem C3_code_eval :
    sync_instructions VariableConflict.raiseError (str ("alpha")) entInstr dbW3 =
      Except.error (str ("42702: column reference server_id is ambiguous")) ∧
    (processEntry 0 (dbW3, stats0) entInstr).1.instructions = [staleRow] ∧
    staleRow.sort_order = 7 ∧
    sync_instructions VariableConflict.useColumn (str ("alpha")) entInstr dbW3 =
      Except.ok { servers := [],
                  instructions := [mkSourceRow (str ("alpha")) cliInput 0] } :=
  ⟨rfl, rfl, rfl, rfl⟩

/-- C4.  Evaluation of the source's identifier fallback at the claim's own
example: with no repository URL the source derives `-emo-uth` from the name
`Demo Auth`, because it collapses runs of `[^a-z0-9]` (which includes every
uppercase letter) BEFORE lowercasing, while the claim's
lower-then-collapse reading derives `demo-auth`. -/
theorem C4_code_eval :
    generate_server_id (str ("Demo Auth")) none = str ("-emo-uth") ∧
    fallbackIdClaim (str ("Demo Auth")) = str ("demo-auth") ∧
    generate_server_id (str ("Demo Auth")) none ≠
      fallbackIdClaim (str ("Demo Auth")) := by decide

/-- C5.  Evaluation of a three-entry page: whatever the entries are, every
one of them raises while `server_data` is built (the `extract_tags` call
fails on every input), so the run counts 3 seen, 0 added, 0 updated,
3 skipped, with one diagnostic per entry — not the 2 successes and 1 skip
the claim states.  The run is still not aborted: one page fetch, and the
returned object reports success. -/
theorem C5_code_eval (now : Nat) (e1 e2 e3 : Entry) (db : DB) :
    (runSync now [FetchOutcome.page [e1, e2, e3] false] db).stats.server_count = 3 ∧
    (runSync now [FetchOutcome.page [e1, e2, e3] false] db).stats.added_count = 0 ∧
    (runSync now [FetchOutcome.page [e1, e2, e3] false] db).stats.updated_count = 0 ∧
    (runSync now [FetchOutcome.page [e1, e2, e3] false] db).stats.skipped_count = 3 ∧
    (runSync now [FetchOutcome.page [e1, e2, e3] false] db).stats.error_messages =
      [entryErrMsg e1, entryErrMsg e2, entryErrMsg e3] ∧
    (sync_mcp_servers_from_pulsemcp now
      [FetchOutcome.page [e1, e2, e3] false] db).success = true ∧
    (runSync now [FetchOutcome.page [e1, e2, e3] false] db).pagesFetched = 1 := by
  have hpp : processPage now (db, stats0) [e1, e2, e3] =
      (db, { server_count := 3, added_count := 0, updated_count := 0,
             skipped_count := 3, error_count := 3,
             error_messages := [entryErrMsg e1, entryErrMsg e2, entryErrMsg e3] }) := by
    simp [processPage, List.foldl, processEntry_eval, entryRaise, stats0]
  have hrun : runSync now [FetchOutcome.page [e1, e2, e3] false] db =
      { db := db,
        stats := { server_count := 3, added_count := 0, updated_count := 0,
                   skipped_count := 3, error_count := 3,
                   error_messages := [entryErrMsg e1, entryErrMsg e2, entryErrMsg e3] },
        pagesFetched := 1 } := by
    rw [runSync, runPages_page]
    simp only [Bool.false_eq_true, if_false]
    rw [hpp]
  exact ⟨by rw [hrun], by rw [hrun], by rw [hrun], by rw [hrun],
    by rw [hrun], rfl, by rw [hrun]⟩

/-- C6 counterexample.  The claim's rule list (keywords scanned over name
and description) classifies the name `file` as `files`, but the source
scans `file` only in the description and returns `other` for this input. -/
theorem C6_counterexample :
    determine_category (str ("file")) none = str ("other") ∧
    categoryClaimRules (str ("file")) none = str ("files") := by decide

/-- C6 amended.  The classifier is first-match-wins over the ordered rules,
but with the source's field sensitivity: `auth` in name or description,
`db` in the name only, and every other keyword in the description only.
The claim's two particular cases hold: a description containing `database`
with no earlier keyword yields `database`, and inputs hitting no keyword
yield `other`. -/
theorem C6_field_sensitive :
    (∀ (name : Str) (description : Option Str),
      determine_category name description = categoryAmendedRules name description) ∧
    determine_category (str ("tool")) (some (str ("a database system"))) =
      str ("database") ∧
    determine_category (str ("zz")) (some (str ("qq"))) = str ("other") :=
  ⟨fun _ _ => rfl, by decide, by decide⟩

/-- C7.  For every input pair, `extract_tags` raises instead of producing a
tag list: the WHERE clause of its aggregation query names the column
`unnest`, and the query's (empty) FROM list has no such column, so the
reference fails to resolve — undefined-column on every call. -/
theorem C7_code_eval (name description : Option Str) :
    extract_tags name description =
      Except.error (str ("42703: column ") ++ str ("unnest") ++
        str (" does not exist")) ∧
    resolveColumnRef tagQueryFromColumns (str ("unnest")) =
      Except.error (str ("42703: column ") ++ str ("unnest") ++
        str (" does not exist")) := ⟨rfl, rfl⟩

/-- C1 amended.  For every run in which a page fetch raises (after any
number of complete pages), the loop stops pagination at that fetch and the
function returns the statistics accumulated so far with the page error
message appended — but with `success` = true: the page-level handler
swallows the error, so the normal success return is taken, not the outer
failure return. -/
theorem C1_page_error_behavior (now : Nat) (db : DB) (pre : List (List Entry))
    (m : Str) (post : List FetchOutcome) :
    runSync now (pre.map (fun es => FetchOutcome.page es true) ++
        FetchOutcome.fail m :: post) db =
      { db := (pre.foldl (processPage now) (db, stats0)).1,
        stats := pageFailStats m (pre.foldl (processPage now) (db, stats0)).2,
        pagesFetched := pre.length + 1 } ∧
    (sync_mcp_servers_from_pulsemcp now
      (pre.map (fun es => FetchOutcome.page es true) ++
        FetchOutcome.fail m :: post) db).success = true ∧
    (sync_mcp_servers_from_pulsemcp now
      (pre.map (fun es => FetchOutcome.page es true) ++
        FetchOutcome.fail m :: post) db).errors =
      (pre.foldl (processPage now) (db, stats0)).2.error_messages ++
        [pageFailMsg m] := by
  have h1 : runSync now (pre.map (fun es => FetchOutcome.page es true) ++
      FetchOutcome.fail m :: post) db =
      { db := (pre.foldl (processPage now) (db, stats0)).1,
        stats := pageFailStats m (pre.foldl (processPage now) (db, stats0)).2,
        pagesFetched := pre.length + 1 } := by
    rw [runSync, runPages_prefix_fail now m pre post]
    simp only [RunState.mk.injEq]
    exact ⟨by trivial, by trivial, by omega⟩
  refine ⟨h1, rfl, ?_⟩
  rw [sync_mcp_servers_from_pulsemcp, h1]
  rfl

/-- C1 counterexample.  A run whose very first page fetch raises reports
`success` = true (the claim says false), while still carrying the page
error in the stats and fetching no further page. -/
theorem C1_counterexample :
    (sync_mcp_servers_from_pulsemcp 0
      [FetchOutcome.fail (str ("connection refused"))] emptyDB).success = true ∧
    (sync_mcp_servers_from_pulsemcp 0
      [FetchOutcome.fail (str ("connection refused"))] emptyDB).errors =
      [pageFailMsg (str ("connection refused"))] ∧
    (runSync 0 [FetchOutcome.fail (str ("connection refused"))]
      emptyDB).pagesFetched = 1 := by decide

/-- C8.  Evaluation of one reconciliation iteration at any input: the
entry raises while `server_data` is built, before either upsert path, so
the servers table — and with it every row's creation AND update
timestamp — is exactly what it was, and the statistics record one skip;
the refresh/insert behaviors the claim describes never occur.  (Had the
write gone through, the instruction DELETE's 42702 raise would have rolled
it back.) -/
theorem C8_code_eval (now : Nat) (db : DB) (s : Stats) (e : Entry) :
    (processEntry now (db, s) e).1 = db ∧
    (processEntry now (db, s) e).2 =
      entryRaise { s with server_count := s.server_count + 1 } e ∧
    (processEntry now (db, s) e).1.servers.map
      (fun r => (r.created_at, r.updated_at)) =
      db.servers.map (fun r => (r.created_at, r.updated_at)) :=
  ⟨rfl, rfl, rfl⟩

/-- C9.  Pagination stops exactly when a page has no next cursor: a page
with no cursor ends the loop at once (whatever outcomes would follow), and
for pages P1 (next present) and P2 (no next) exactly two fetches happen,
both pages' entries are processed, and nothing after P2 is fetched. -/
theorem C9_pagination_stops (now : Nat) (a b : List Entry)
    (post : List FetchOutcome) (db : DB) (s : Stats) (k : Nat) :
    runPages now (FetchOutcome.page a false :: post) ⟨db, s, k⟩ =
      { db := (processPage now (db, s) a).1,
        stats := (processPage now (db, s) a).2, pagesFetched := k + 1 } ∧
    runPages now (FetchOutcome.page a true :: FetchOutcome.page b false :: post)
        ⟨db, s, k⟩ =
      { db := (processPage now (processPage now (db, s) a) b).1,
        stats := (processPage now (processPage now (db, s) a) b).2,
        pagesFetched := k + 1 + 1 } := by
  constructor
  · simp [runPages]
  · simp [runPages]

/-- C10.  Invariant of the orchestration loop: every completed entry
iteration adds exactly one to the total-seen count and exactly one to
added + updated + skipped (in every real execution the entry raises during
`server_data` construction and lands in `skipped`; the success counters
are never reached), so after any run the total-seen count equals the sum
of the three outcome counters — with added and updated both zero. -/
theorem C10_accounting (now : Nat) (env : List FetchOutcome) (db : DB) :
    (∀ (acc : DB × Stats) (e : Entry),
      (processEntry now acc e).2.server_count = acc.2.server_count + 1 ∧
      (processEntry now acc e).2.added_count = acc.2.added_count ∧
      (processEntry now acc e).2.updated_count = acc.2.updated_count ∧
      (processEntry now acc e).2.skipped_count = acc.2.skipped_count + 1) ∧
    (runSync now env db).stats.server_count =
      (runSync now env db).stats.added_count +
      (runSync now env db).stats.updated_count +
      (runSync now env db).stats.skipped_count ∧
    (runSync now env db).stats.added_count = 0 ∧
    (runSync now env db).stats.updated_count = 0 := by
  refine ⟨fun acc e => processEntry_deltas now acc e, ?_, ?_, ?_⟩
  · exact runPages_balance now env _ rfl
  · exact (runPages_no_success now env ⟨db, stats0, 0⟩).1
  · exact (runPages_no_success now env ⟨db, stats0, 0⟩).2
